import Mathlib

/-!
Verification of the couchdb_user reconciliation module.

The module reconciles a single CouchDB user account against a desired
declaration.  We embed the pure decision logic of the source: the payload
construction of couchdb_user_create, the credential verifier
couchdb_user_valid_password, and the reconciliation flow of main, with the
HTTP transport abstracted away.  The fetched record is an input, and the
writes the code would issue are collected in a list.  Dictionary key lookups
that can raise KeyError are modelled with Except, as are the ValueError
raises of couchdb_user_create.  The external pbkdf2 key-derivation function
is a parameter.
-/

/-- Desired presence of the account, from the state module argument
(choices are present and absent). -/
inductive UserState where
  | present
  | absent
deriving Repr, DecidableEq

/-- The fetched remote user record, as the fields main reads from the JSON
object: name, the _rev token, roles, and the optional password_scheme,
derived_key, salt and iterations keys.  An Option field models presence or
absence of the key in the JSON dictionary. -/
structure UserObj where
  name : String
  rev : String
  roles : List String
  password_scheme : Option String
  derived_key : Option String
  salt : Option String
  iterations : Option Int
deriving Repr, DecidableEq

/-- The JSON body couchdb_user_create PUTs to the server.  name, roles and
type_ are always present; password and the derived-credential keys are
optional.  The salt field is Option Option because the Python dict can hold
the salt key with a null value. -/
structure Payload where
  name : String
  roles : List String
  type_ : String
  password : Option String
  derived_key : Option String
  salt : Option (Option String)
  iterations : Option Int
deriving Repr, DecidableEq

/-- A write issued to the gateway: a PUT of a payload (create or update,
with the revision attached to the URL when updating), or a DELETE with the
record name and revision. -/
inductive WriteCall where
  | put (username : String) (rev : Option String) (data : Payload)
  | delete (name : String) (rev : String)
deriving Repr, DecidableEq

/-- How the invocation ends: exit_json with changed and the username,
fail_json with a message, or an uncaught Python exception. -/
inductive Outcome where
  | exitJson (changed : Bool) (user : String)
  | failJson (msg : String)
  | pyError (msg : String)
deriving Repr, DecidableEq

/-- Python truthiness of an optional string: None and the empty string are
falsy. -/
def optTruthy : Option String → Bool
  | none => false
  | some s => !(s == "")

/-- Dictionary lookup that raises KeyError when the key is absent. -/
def dictGet (o : Option α) (key : String) : Except String α :=
  match o with
  | some v => Except.ok v
  | none => Except.error ("KeyError: " ++ key)

/-- Hex digit character, lower case, as binascii.hexlify produces. -/
def hexDigitChar (n : Nat) : Char :=
  if n < 10 then Char.ofNat (48 + n) else Char.ofNat (87 + n)

/-- binascii.hexlify: each byte becomes two lower-case hex digits. -/
def hexlify (bs : List Nat) : String :=
  String.join (bs.map (fun b => String.mk [hexDigitChar (b / 16 % 16), hexDigitChar (b % 16)]))

/-- couchdb_user_valid_password: hash the plaintext with the given salt and
rounds through the key-derivation function kdf and compare the hex encoding
with the stored hash. -/
def couchdb_user_valid_password (kdf : String → String → Int → List Nat)
    (plaintext salt hash_ : String) (rounds : Int) : Bool :=
  hexlify (kdf plaintext salt rounds) == hash_

/-- couchdb_user_valid_password when the caller omits rounds: the Python
signature defaults rounds to 10. -/
def couchdb_user_valid_password_default (kdf : String → String → Int → List Nat)
    (plaintext salt hash_ : String) : Bool :=
  couchdb_user_valid_password kdf plaintext salt hash_ 10

/-- couchdb_user_create: build the PUT request.  Raises ValueError when both
password and derived_key are given, or when exactly one of derived_key and
salt is truthy.  The payload always carries name, roles and type user; it
carries password when one is given, otherwise the derived-credential fields
when a derived_key is given. -/
def couchdb_user_create (username : String) (password : Option String)
    (roles : Option (List String)) (rev : Option String)
    (derived_key : Option String) (salt : Option String)
    (iterations : Option Int) : Except String WriteCall :=
  let roles := roles.getD []
  if password.isSome && derived_key.isSome then
    Except.error "pass either password or derived_key"
  else
    let iterations := iterations.getD 10
    if (optTruthy derived_key || optTruthy salt)
        && !(optTruthy derived_key && optTruthy salt) then
      Except.error "one of derived_key or salt is missing"
    else
      match password with
      | some pw =>
        Except.ok (WriteCall.put username rev ⟨username, roles, "user", some pw, none, none, none⟩)
      | none =>
        match derived_key with
        | some dk =>
          Except.ok (WriteCall.put username rev
            ⟨username, roles, "user", none, some dk, some salt, some iterations⟩)
        | none =>
          Except.ok (WriteCall.put username rev ⟨username, roles, "user", none, none, none, none⟩)

/-- Role-list normalisation at the top of main: a missing list becomes
empty, and the single empty string list becomes empty. -/
def normalizeRoles (rolesParam : Option (List String)) : List String :=
  match rolesParam with
  | none => []
  | some rs => if rs == [""] then [] else rs

/-- Python set equality of two string lists. -/
def sameSet (a b : List String) : Bool :=
  a.all (fun x => b.contains x) && b.all (fun x => a.contains x)

/-- The password_scheme guard of main: fail when the key is present, truthy
and different from pbkdf2. -/
def schemeUnsupported (userobj : UserObj) : Bool :=
  match userobj.password_scheme with
  | some scheme => !(scheme == "") && !(scheme == "pbkdf2")
  | none => false

/-- The create_args dictionary main builds for an update.  The password
field is Option Option because the dict can hold the password key with the
value None, which is distinct from the key being absent. -/
structure CreateArgs where
  password : Option (Option String)
  roles : Option (List String)
  derived_key : Option String
  salt : Option String
  iterations : Option Int
deriving Repr, DecidableEq

/-- Python truthiness of the create_args dict: nonempty. -/
def CreateArgs.nonempty (c : CreateArgs) : Bool :=
  c.password.isSome || c.roles.isSome || c.derived_key.isSome
    || c.salt.isSome || c.iterations.isSome

/-- The password decision of main (lines 279 to 290): decide whether the
password key goes into create_args, and with which value.  Looks up salt,
derived_key and iterations by direct indexing, so a missing key raises. -/
def passwordDecision (kdf : String → String → Int → List Nat)
    (password : Option String) (userobj : UserObj) :
    Except String (Option (Option String)) :=
  match password with
  | some pw =>
    if userobj.derived_key.isSome then
      match dictGet userobj.salt "salt" with
      | Except.error e => Except.error e
      | Except.ok s =>
        match dictGet userobj.derived_key "derived_key" with
        | Except.error e => Except.error e
        | Except.ok dk =>
          match dictGet userobj.iterations "iterations" with
          | Except.error e => Except.error e
          | Except.ok its =>
            if couchdb_user_valid_password kdf pw s dk its then
              Except.ok none
            else
              Except.ok (some (some pw))
    else
      Except.ok (some (some pw))
  | none =>
    if userobj.derived_key.isSome then
      Except.ok (some none)
    else
      Except.ok none

/-- The roles decision of main (lines 292 to 300): when the desired role
set differs from the fetched one, put roles into create_args, and carry the
stored credential forward only when the record has a derived_key and the
password key is not already in create_args. -/
def rolesDecision (roles : List String) (userobj : UserObj)
    (pwField : Option (Option String)) : Except String CreateArgs :=
  if sameSet userobj.roles roles then
    Except.ok ⟨pwField, none, none, none, none⟩
  else
    if userobj.derived_key.isSome && pwField.isNone then
      match dictGet userobj.derived_key "derived_key" with
      | Except.error e => Except.error e
      | Except.ok dk =>
        match dictGet userobj.salt "salt" with
        | Except.error e => Except.error e
        | Except.ok s =>
          match dictGet userobj.iterations "iterations" with
          | Except.error e => Except.error e
          | Except.ok its =>
            Except.ok ⟨pwField, some roles, some dk, some s, some its⟩
    else
      Except.ok ⟨pwField, some roles, none, none, none⟩

/-- The reconciliation flow of main after the fetch: the desired username,
password, role list and state against the fetched record (none is the 404
case).  Returns the writes issued to the gateway and the outcome. -/
def reconcile (kdf : String → String → Int → List Nat) (username : String)
    (password : Option String) (rolesParam : Option (List String))
    (state : UserState) (fetched : Option UserObj) :
    List WriteCall × Outcome :=
  let roles := normalizeRoles rolesParam
  match fetched with
  | some userobj =>
    match state with
    | UserState.absent =>
      ([WriteCall.delete userobj.name userobj.rev], Outcome.exitJson true username)
    | UserState.present =>
      if schemeUnsupported userobj then
        ([], Outcome.failJson
          ("unsupported password scheme " ++ userobj.password_scheme.getD ""))
      else
        match passwordDecision kdf password userobj with
        | Except.error e => ([], Outcome.pyError e)
        | Except.ok pwField =>
          match rolesDecision roles userobj pwField with
          | Except.error e => ([], Outcome.pyError e)
          | Except.ok ca =>
            if ca.nonempty then
              match couchdb_user_create username (ca.password.getD none) ca.roles
                  (some userobj.rev) ca.derived_key ca.salt ca.iterations with
              | Except.error e => ([], Outcome.pyError e)
              | Except.ok w => ([w], Outcome.exitJson true username)
            else
              ([], Outcome.exitJson false username)
  | none =>
    match state with
    | UserState.present =>
      match couchdb_user_create username password (some roles) none none none none with
      | Except.error e => ([], Outcome.failJson ("error creating user: " ++ e))
      | Except.ok w => ([w], Outcome.exitJson true username)
    | UserState.absent =>
      ([], Outcome.exitJson false username)

/-- C1: the scenario of the claim evaluated on the code.  Fetched record has
roles reader and a derived credential with derived_key dk0, salt salt0 and
10 iterations; desired roles are reader and writer with no desired password.
The code issues an update whose payload carries the new roles but none of
derived_key, salt or iterations, because the password-None sentinel placed
into create_args defeats the carry-forward guard; the stored password is
cleared rather than carried forward as the claim requires. -/
theorem roles_change_without_password_clears_credential :
    reconcile (fun _ _ _ => []) "bob" none (some ["reader", "writer"]) UserState.present
      (some ⟨"bob", "1-x", ["reader"], none, some "dk0", some "salt0", some 10⟩)
      = ([WriteCall.put "bob" (some "1-x")
            ⟨"bob", ["reader", "writer"], "user", none, none, none, none⟩],
         Outcome.exitJson true "bob") := by
  rfl

/-- C4: a fetched record whose derived credential omits the iterations key,
with a password supplied.  main indexes the iterations key directly, so the
invocation dies with an uncaught KeyError instead of verifying with the
default of 10 rounds. -/
theorem missing_iterations_raises_keyerror :
    reconcile (fun _ _ _ => []) "bob" (some "bar") (some []) UserState.present
      (some ⟨"bob", "1-x", [], none, some "dk0", some "salt0", none⟩)
      = ([], Outcome.pyError "KeyError: iterations") := by
  rfl

/-- C5 counterexample: a fetched record with password scheme bcrypt and
desired state absent.  The claim says every invocation on such a record
fails with no write, but the scheme guard runs only in the present branch:
the code deletes the record and reports changed. -/
theorem unsupported_scheme_absent_still_deletes :
    reconcile (fun _ _ _ => []) "bob" none none UserState.absent
      (some ⟨"bob", "3-abc", [], some "bcrypt", none, none, none⟩)
      = ([WriteCall.delete "bob" "3-abc"], Outcome.exitJson true "bob") := by
  rfl

/-- C6: the credential verifier returns true exactly when the hex encoding
of the key-derivation of the candidate with the salt for the given rounds
equals the stored hash, and omitting rounds means 10 rounds. -/
theorem valid_password_iff_hexlify_eq (kdf : String → String → Int → List Nat)
    (plaintext salt hash_ : String) (rounds : Int) :
    (couchdb_user_valid_password kdf plaintext salt hash_ rounds = true ↔
      hexlify (kdf plaintext salt rounds) = hash_) ∧
    couchdb_user_valid_password_default kdf plaintext salt hash_
      = couchdb_user_valid_password kdf plaintext salt hash_ 10 := by
  constructor
  · simp [couchdb_user_valid_password]
  · rfl

/-- C8: when the fetch returns not-found and the desired state is present,
exactly one create PUT is issued, with no revision, carrying the name, the
normalised roles, type user and the password exactly when one was supplied,
and the result is changed. -/
theorem create_when_record_absent (kdf : String → String → Int → List Nat)
    (username : String) (password : Option String)
    (rolesParam : Option (List String)) :
    reconcile kdf username password rolesParam UserState.present none
      = ([WriteCall.put username none
            ⟨username, normalizeRoles rolesParam, "user", password, none, none, none⟩],
         Outcome.exitJson true username) := by
  cases password <;> rfl

/-- C9: when the record exists and the desired state is absent, exactly one
delete is issued, with the fetched record name and revision, and the result
is changed. -/
theorem delete_when_state_absent (kdf : String → String → Int → List Nat)
    (username : String) (password : Option String)
    (rolesParam : Option (List String)) (userobj : UserObj) :
    reconcile kdf username password rolesParam UserState.absent (some userobj)
      = ([WriteCall.delete userobj.name userobj.rev], Outcome.exitJson true username) := by
  rfl

/-- C10: a roles parameter holding the single empty string behaves exactly
like the empty list: the normalisation maps both to the empty list before
any diffing, so every invocation produces the same writes and outcome. -/
theorem empty_string_roles_list_equiv (kdf : String → String → Int → List Nat)
    (username : String) (password : Option String) (state : UserState)
    (fetched : Option UserObj) :
    reconcile kdf username password (some [""]) state fetched
      = reconcile kdf username password (some []) state fetched := by
  rfl

/-- C2: couchdb_user_create never builds a payload holding both a plaintext
password and derived-credential fields.  When both password and derived_key
are supplied it raises, and every payload it does emit carries at most one
of the two groups. -/
theorem create_payload_mutual_exclusivity (username : String)
    (password : Option String) (roles : Option (List String))
    (rev : Option String) (derived_key salt : Option String)
    (iterations : Option Int) :
    (password.isSome = true → derived_key.isSome = true →
      couchdb_user_create username password roles rev derived_key salt iterations
        = Except.error "pass either password or derived_key") ∧
    (∀ u r p, couchdb_user_create username password roles rev derived_key salt iterations
        = Except.ok (WriteCall.put u r p) →
      ¬(p.password.isSome = true ∧
        (p.derived_key.isSome = true ∨ p.salt.isSome = true ∨ p.iterations.isSome = true))) := by
  constructor
  · intro hp hd
    simp [couchdb_user_create, hp, hd]
  · intro u r p hok
    unfold couchdb_user_create at hok
    split at hok
    · exact absurd hok (by simp)
    · split at hok
      · exact absurd hok (by simp)
      · split at hok
        · rcases hok with ⟨⟩
          simp
        · split at hok
          · rcases hok with ⟨⟩
            simp
          · rcases hok with ⟨⟩
            simp

/-- C2 witness: with both password and derived_key supplied the call
raises, and a plain password create emits a payload with the password and
none of the derived-credential fields. -/
theorem create_payload_mutual_exclusivity_witness :
    couchdb_user_create "bob" (some "bar") none none (some "dk0") none none
      = Except.error "pass either password or derived_key" ∧
    ¬((Payload.mk "bob" [] "user" (some "bar") none none none).password.isSome = true ∧
      ((Payload.mk "bob" [] "user" (some "bar") none none none).derived_key.isSome = true ∨
        (Payload.mk "bob" [] "user" (some "bar") none none none).salt.isSome = true ∨
        (Payload.mk "bob" [] "user" (some "bar") none none none).iterations.isSome = true)) :=
  ⟨(create_payload_mutual_exclusivity "bob" (some "bar") none none (some "dk0") none none).1
      rfl rfl,
   (create_payload_mutual_exclusivity "bob" (some "bar") none none none none none).2
      "bob" none (Payload.mk "bob" [] "user" (some "bar") none none none) rfl⟩

/-- C3: record exists with a derived credential, the supplied password
verifies against the stored salt, derived key and iteration count, and the
desired role set equals the fetched one; then no write is issued and the
outcome is unchanged, so the plaintext never reaches the gateway. -/
theorem matching_password_noop (kdf : String → String → Int → List Nat)
    (username pw : String) (rolesParam : Option (List String))
    (userobj : UserObj) (dk s : String) (its : Int)
    (hdk : userobj.derived_key = some dk) (hs : userobj.salt = some s)
    (hits : userobj.iterations = some its)
    (hscheme : schemeUnsupported userobj = false)
    (hvalid : couchdb_user_valid_password kdf pw s dk its = true)
    (hroles : sameSet userobj.roles (normalizeRoles rolesParam) = true) :
    reconcile kdf username (some pw) rolesParam UserState.present (some userobj)
      = ([], Outcome.exitJson false username) := by
  simp [reconcile, hscheme, passwordDecision, hdk, hs, hits, dictGet, hvalid,
        rolesDecision, hroles, CreateArgs.nonempty]

/-- C3 witness: a concrete record whose stored derived key matches the
candidate under the trivial key-derivation function; the reconciliation
issues no write and reports unchanged. -/
theorem matching_password_noop_witness :
    reconcile (fun _ _ _ => []) "bob" (some "bar") (some ["r"]) UserState.present
      (some ⟨"bob", "1-x", ["r"], none, some "", some "s0", some 10⟩)
      = ([], Outcome.exitJson false "bob") :=
  matching_password_noop (fun _ _ _ => []) "bob" "bar" (some ["r"])
    ⟨"bob", "1-x", ["r"], none, some "", some "s0", some 10⟩ "" "s0" 10
    rfl rfl rfl rfl (by decide) (by decide)

/-- C5 amended: when the record exists, the desired state is present, and
the fetched password scheme is present, nonempty and different from pbkdf2,
the invocation fails with the unsupported-scheme message and no write is
issued.  (As stated the claim is refuted: with desired state absent the
scheme guard never runs and the record is deleted.) -/
theorem unsupported_scheme_present_fails_no_write
    (kdf : String → String → Int → List Nat) (username : String)
    (password : Option String) (rolesParam : Option (List String))
    (userobj : UserObj) (scheme : String)
    (hps : userobj.password_scheme = some scheme)
    (h1 : scheme ≠ "") (h2 : scheme ≠ "pbkdf2") :
    reconcile kdf username password rolesParam UserState.present (some userobj)
      = ([], Outcome.failJson ("unsupported password scheme " ++ scheme)) := by
  have hb : schemeUnsupported userobj = true := by
    simp [schemeUnsupported, hps, h1, h2]
  simp [reconcile, hb, hps]

/-- C5 witness: a record with password scheme bcrypt and desired state
present fails with the unsupported-scheme message and no write. -/
theorem unsupported_scheme_present_fails_witness :
    reconcile (fun _ _ _ => []) "bob" none none UserState.present
      (some ⟨"bob", "3-abc", [], some "bcrypt", none, none, none⟩)
      = ([], Outcome.failJson "unsupported password scheme bcrypt") :=
  unsupported_scheme_present_fails_no_write (fun _ _ _ => []) "bob" none none
    ⟨"bob", "3-abc", [], some "bcrypt", none, none, none⟩ "bcrypt"
    rfl (by decide) (by decide)

/-- C7: record exists, desired state present, no desired password, the
record has a derived credential and the desired role set equals the fetched
one.  An update is still issued with changed true, and its payload is
exactly name, empty roles and type user: no password, no derived fields,
and roles emptied regardless of the current roles of the record. -/
theorem no_password_equal_roles_empty_update
    (kdf : String → String → Int → List Nat) (username : String)
    (rolesParam : Option (List String)) (userobj : UserObj)
    (hdk : userobj.derived_key.isSome = true)
    (hscheme : schemeUnsupported userobj = false)
    (hroles : sameSet userobj.roles (normalizeRoles rolesParam) = true) :
    reconcile kdf username none rolesParam UserState.present (some userobj)
      = ([WriteCall.put username (some userobj.rev)
            ⟨username, [], "user", none, none, none, none⟩],
         Outcome.exitJson true username) := by
  simp [reconcile, hscheme, passwordDecision, hdk, rolesDecision, hroles,
        CreateArgs.nonempty, couchdb_user_create, optTruthy]

/-- C7 witness: a record with roles equal to the desired roles and a
derived credential, no desired password; the code PUTs a payload with empty
roles and no credential fields, reporting changed. -/
theorem no_password_equal_roles_update_witness :
    reconcile (fun _ _ _ => []) "bob" none (some ["r"]) UserState.present
      (some ⟨"bob", "1-x", ["r"], none, some "dk0", none, none⟩)
      = ([WriteCall.put "bob" (some "1-x") ⟨"bob", [], "user", none, none, none, none⟩],
         Outcome.exitJson true "bob") :=
  no_password_equal_roles_empty_update (fun _ _ _ => []) "bob" (some ["r"])
    ⟨"bob", "1-x", ["r"], none, some "dk0", none, none⟩ rfl rfl (by decide)
